import Mathlib

/-!
Shallow embedding of the asynchronous message-passing core of the
repository (files `src/channel.rs`, `src/net.rs`, `src/app.rs`):
event channels, one-shot promises, the submit combinator, the UDP
transport (`send_to`, `send_to_all`, `addr`) and the cancellable
receive loop (`listen_session`).

Asynchronous effects are made explicit: channel and promise endpoints
become record states, the receive loop consumes a list of select
outcomes (datagram arrived / cancellation observed), and the transport
records an effect trace of encode and OS-send operations.
-/

namespace Halloween

/-- The error taxonomy of the crate's `Result` type (spec §7):
channel peer dropped, abandoned promise, unroutable address variant,
socket failure, and wire codec failure. -/
inductive Error where
  | channelClosed
  | requestFailed
  | unsupportedAddress
  | ioError
  | codec
  deriving DecidableEq, Repr

/-- Modelled from the spec: the socket-address variant payload of
`Addr` (`crate::model`, not present under `src/`): "a network socket
address (host + port)". -/
structure SocketAddr where
  host : Nat
  port : Nat
  deriving DecidableEq, Repr

/-- Modelled from the spec: `Addr` (`crate::model`, not present under
`src/`): "a closed variant set identifying a destination; currently one
variant, a network socket address. Other variants are representable in
the type". `other` stands for any non-socket variant. -/
inductive Addr where
  | socket (a : SocketAddr)
  | other
  deriving DecidableEq, Repr

/-! ## Event channel (`src/channel.rs`, tokio unbounded mpsc)

`EventSender`/`EventSource` wrap `tokio::sync::mpsc::unbounded_channel`.
The channel state records the queued messages, how many producer
handles are still alive, and whether the single receiver is alive. -/

structure EventChannel (M : Type) where
  queue : List M
  senders : Nat
  receiverAlive : Bool
  deriving DecidableEq, Repr

/-- Embeds `EventSender::send`: enqueues unless the receiver has been dropped,
in which case it fails with "unexpected event channel closing"
(ChannelClosed). Never blocks: the queue is unbounded. -/
def EventSender.send {M : Type} (c : EventChannel M) (m : M) :
    Except Error (EventChannel M) :=
  if c.receiverAlive then .ok { c with queue := c.queue ++ [m] }
  else .error .channelClosed

/-- Poll outcome of `UnboundedReceiver::recv`: a message, channel
closed (queue drained and every sender dropped), or pending. -/
inductive RecvPoll (M : Type) where
  | msg (m : M) (rest : EventChannel M)
  | closed
  | pending
  deriving DecidableEq, Repr

def recvPoll {M : Type} (c : EventChannel M) : RecvPoll M :=
  match c.queue with
  | m :: q => .msg m { c with queue := q }
  | [] => if c.senders = 0 then .closed else .pending

/-- Result of an async call that may suspend. -/
inductive Async (α : Type) where
  | ready (a : α)
  | pending
  deriving DecidableEq, Repr

/-- Embeds `EventSource::next`: `recv().await.ok_or(err!("unexpected source
closing"))` — a closed channel becomes a ChannelClosed error. -/
def EventSource.next {M : Type} (c : EventChannel M) :
    Async (Except Error M × EventChannel M) :=
  match recvPoll c with
  | .msg m rest => .ready (.ok m, rest)
  | .closed => .ready (.error .channelClosed, c)
  | .pending => .pending

/-- Embeds `EventSource::option_next`: `recv().await` unchanged — closure is
the empty outcome `none`, not an error. -/
def EventSource.optionNext {M : Type} (c : EventChannel M) :
    Async (Option M × EventChannel M) :=
  match recvPoll c with
  | .msg m rest => .ready (some m, rest)
  | .closed => .ready (none, c)
  | .pending => .pending

/-! ## Promise (`src/channel.rs`, tokio oneshot) -/

/-- State of a `tokio::sync::oneshot` pair: whether each half is still
alive and the value delivered so far. -/
structure OneshotState (T : Type) where
  producerAlive : Bool
  receiverAlive : Bool
  value : Option T
  deriving DecidableEq, Repr

/-- Embeds `oneshot::Sender::send`: consumes the sender; fails (returning the
value) iff the receiver half has been dropped. -/
def oneshotSend {T : Type} (s : OneshotState T) (v : T) :
    Except Unit (OneshotState T) :=
  if s.receiverAlive then
    .ok { s with producerAlive := false, value := some v }
  else .error ()

/-- Embeds `PromiseSender::resolve`: consumes the producer; a failed delivery
is written to stderr and not surfaced — the function's return type
carries no error channel. Returns the new state and the lines logged. -/
def PromiseSender.resolve {T : Type} (s : OneshotState T) (v : T) :
    OneshotState T × List String :=
  match oneshotSend s v with
  | .ok s' => (s', [])
  | .error () =>
      ({ s with producerAlive := false },
       ["return channel closed before submitted task finishes"])

/-! ## Submit combinator (`SubmitHandle::submit`) -/

/-- What eventually happens to the fresh promise handed to the server:
either some holder resolves it with a value, or every holder drops it
unresolved. -/
inductive PromiseFate (U : Type) where
  | resolved (v : U)
  | dropped
  deriving DecidableEq, Repr

/-- Placeholder for the fresh promise producer travelling in the
channel message `(op, result)`. -/
inductive PromiseMarker where
  | marker
  deriving DecidableEq, Repr

/-- Embeds `SubmitHandle::submit`: make a fresh promise pair, `send((op,
result))?` on the event channel, then `Ok(promise.await?)`: a failed
send surfaces ChannelClosed, a dropped producer surfaces the oneshot
`RecvError` as RequestFailed, and a resolved promise yields its value. -/
def SubmitHandle.submit {T U : Type} (ch : EventChannel (T × PromiseMarker))
    (op : T) (fate : PromiseFate U) :
    Except Error U × EventChannel (T × PromiseMarker) :=
  match EventSender.send ch (op, .marker) with
  | .error e => (.error e, ch)
  | .ok ch' =>
      match fate with
      | .resolved v => (.ok v, ch')
      | .dropped => (.error .requestFailed, ch')

/-! ## UDP transport (`src/net.rs`)

Outbound operations are embedded with an explicit effect trace: one
`encodeOp` each time `borsh::to_vec` runs, one `osSend` for each call
to `tokio::net::UdpSocket::send_to`. The borsh encoder for the wire
type and the OS send are parameters (the wire schema is
application-defined, spec §6; the socket is the OS's). -/

/-- One observable effect of an outbound transport operation. -/
inductive NetOp where
  | encodeOp
  | osSend (dest : SocketAddr) (payload : List Nat)
  deriving DecidableEq, Repr

/-- The socket sends a trace records: destination and exact bytes. -/
def sentPayloads (t : List NetOp) : List (SocketAddr × List Nat) :=
  t.filterMap fun op =>
    match op with
    | .encodeOp => none
    | .osSend d p => some (d, p)

/-- Embeds `Transport::send_to` for `UdpTransport` (`src/net.rs:70-80`): the
`let Addr::Socket(destination) = destination else bail!` check runs
first, then `borsh::to_vec(&message.into())?`, then one
`send_to(&buf, destination)`. `conv` is the total `M → N` application
to wire conversion; `encode` is the borsh encoder; `io` is the OS-level
send. -/
def UdpTransport.sendTo {M N : Type} (conv : M → N)
    (encode : N → Except Error (List Nat))
    (io' : SocketAddr → List Nat → Except Error Unit)
    (destination : Addr) (message : M) : List NetOp × Except Error Unit :=
  match destination with
  | .other => ([], .error .unsupportedAddress)
  | .socket d =>
      match encode (conv message) with
      | .error e => ([.encodeOp], .error e)
      | .ok buf =>
          match io' d buf with
          | .ok () => ([.encodeOp, .osSend d buf], .ok ())
          | .error e => ([.encodeOp, .osSend d buf], .error e)

/-- The `for destination in destinations` loop of `send_to_all`, after
the single encode has produced `buf`. -/
def sendLoop (io' : SocketAddr → List Nat → Except Error Unit)
    (buf : List Nat) : List Addr → List NetOp × Except Error Unit
  | [] => ([], .ok ())
  | .socket d :: rest =>
      match io' d buf with
      | .ok () =>
          let r := sendLoop io' buf rest
          (.osSend d buf :: r.1, r.2)
      | .error e => ([.osSend d buf], .error e)
  | .other :: _ => ([], .error .unsupportedAddress)

/-- Embeds `Transport::send_to_all` for `UdpTransport` (`src/net.rs:82-98`):
encodes once before the loop, then sends the same `buf` to each
destination, bailing with UnsupportedAddress at the first non-socket
destination. -/
def UdpTransport.sendToAll {M N : Type} (conv : M → N)
    (encode : N → Except Error (List Nat))
    (io' : SocketAddr → List Nat → Except Error Unit)
    (destinations : List Addr) (message : M) :
    List NetOp × Except Error Unit :=
  match encode (conv message) with
  | .error e => ([.encodeOp], .error e)
  | .ok buf =>
      let r := sendLoop io' buf destinations
      (.encodeOp :: r.1, r.2)

/-- Outcome of `UdpTransport::addr`, whose body is
`Addr::Socket(self.0.local_addr().expect("retrievable local address"))`:
a returned address, or a panic if `local_addr` fails. -/
inductive AddrQuery where
  | value (a : Addr)
  | panicked (msg : String)
  deriving DecidableEq, Repr

/-- Embeds `UdpTransport::addr` (`src/net.rs:66-68`) applied to the result of
`local_addr()` on the shared socket. -/
def UdpTransport.addr (localAddr : Except Error SocketAddr) : AddrQuery :=
  match localAddr with
  | .ok a => .value (.socket a)
  | .error _ => .panicked "retrievable local address"

/-! ## Receive loop (`UdpSocket::listen_session`, `src/net.rs:20-37`)

Each iteration is one `tokio::select!` race between `recv_from` on the
reused 65536-byte buffer and `stop.cancelled()`; the loop is driven by
the list of observed race outcomes. -/

/-- Outcome of one `select!` race in the loop. -/
inductive SelectOutcome where
  | cancelled
  | datagram (bytes : List Nat)
  | recvFailed
  deriving DecidableEq, Repr

/-- Terminal state of a session run (spec §4.6): `Stopped` on
cancellation, `Failed` on error; `running` when the supplied outcome
list is exhausted with the loop still live. -/
inductive SessionOutcome where
  | stopped
  | failed (e : Error)
  | running
  deriving DecidableEq, Repr

/-- Models `recv_from(&mut buf)` writing a datagram of `d.length` bytes into
the front of the reused buffer: the bytes beyond `d.length` keep their
previous contents. -/
def bufWrite (buf d : List Nat) : List Nat := d ++ buf.drop d.length

/-- Embeds `UdpSocket::listen_session`: loop over select outcomes, threading
the reused buffer. A datagram is decoded from `&buf[..len]`; decode
failure (`from_slice::<M>(..)?`) fails the session with a codec error;
a decoded message is converted (`.into()`) and published with
`event.send(..)?`, whose failure (receiver gone, `pubAlive = false`)
fails the session; `stop.cancelled()` winning breaks with `Ok(())`.
Returns the published events, the terminal state, and the outcomes the
loop never processed. -/
def listenSession {W E : Type} (decode : List Nat → Option W) (conv : W → E)
    (pubAlive : Bool) (buf : List Nat) :
    List SelectOutcome → List E × SessionOutcome × List SelectOutcome
  | [] => ([], .running, [])
  | .cancelled :: rest => ([], .stopped, rest)
  | .recvFailed :: rest => ([], .failed .ioError, rest)
  | .datagram d :: rest =>
      let buf' := bufWrite buf d
      match decode (buf'.take d.length) with
      | none => ([], .failed .codec, rest)
      | some w =>
          if pubAlive then
            let r := listenSession decode conv pubAlive buf' rest
            (conv w :: r.1, r.2)
          else ([], .failed .channelClosed, rest)

/-- The fresh receive buffer: `vec![0; 65536]`. -/
def initialBuf : List Nat := List.replicate 65536 0

/-! ## Default-response component (`src/app.rs`)

Modelled from the spec: `Null::submit_loop` reads from a
`crate::submit::Receiver` whose module is not under `src/`. Per the
spec, its item stream ends (`recv` yields the empty outcome) once every
matching submit handle has been dropped (§4.1), and each item carries a
reply channel whose `send` "returns success unless every receiver has
already been dropped" (§4.1/§4.2 peer-disappearance semantics). A
received request is thus represented by the one bit the loop inspects:
whether its reply channel still has a live receiver. -/

/-- Embeds `Null::submit_loop` (`src/app.rs:6-18`): for each received request
reply with `Default::default()`; a failed reply send is mapped to an
error ("unexpected reply channel closing") and propagated with `?`,
ending the loop; an ended stream yields `Ok(())`. Returns how many
replies were delivered and the loop's result. -/
def Null.submitLoop : List Bool → Nat × Except Error Unit
  | [] => (0, .ok ())
  | true :: rest =>
      let r := Null.submitLoop rest
      (r.1 + 1, r.2)
  | false :: _ => (0, .error .channelClosed)

/-! ## Theorems -/

/-- C1: `submit` on a `SubmitHandle` creates a fresh promise pair, sends
`(operation, promise-producer)` through the handle's event channel
(visible as the appended queue entry), then awaits the promise: it
fails with ChannelClosed when no live receiver remains on the server
side, fails with RequestFailed when the promise producer is dropped
unresolved, and otherwise returns exactly the value the server resolved
the promise with. -/
theorem submit_spec {T U : Type} (ch : EventChannel (T × PromiseMarker))
    (op : T) (fate : PromiseFate U) :
    (ch.receiverAlive = false →
      SubmitHandle.submit ch op fate = (.error .channelClosed, ch)) ∧
    (∀ v, ch.receiverAlive = true → fate = .resolved v →
      SubmitHandle.submit ch op fate
        = (.ok v, { ch with queue := ch.queue ++ [(op, .marker)] })) ∧
    (ch.receiverAlive = true → fate = .dropped →
      SubmitHandle.submit ch op fate
        = (.error .requestFailed,
           { ch with queue := ch.queue ++ [(op, .marker)] })) := by
  refine ⟨fun h => ?_, fun v h hf => ?_, fun h hf => ?_⟩ <;>
    subst_vars <;> simp [SubmitHandle.submit, EventSender.send, h]

/-- Concrete run of `submit_spec`: a live channel and a promise resolved
with 7 make `submit` return 7 and enqueue the pair. -/
theorem submit_spec_w :
    SubmitHandle.submit (⟨[], 1, true⟩ : EventChannel (Nat × PromiseMarker))
        5 (PromiseFate.resolved 7)
      = (.ok 7, ⟨[(5, .marker)], 1, true⟩) :=
  (submit_spec ⟨[], 1, true⟩ 5 (PromiseFate.resolved 7)).2.1 7 rfl rfl

/-- C5: resolving a promise whose receiver has been dropped consumes the
producer, logs the condition, and returns normally — the function's
result type carries no error channel, so nothing is surfaced to the
resolver; and resolve always consumes the producer handle, so it cannot
be used a second time. -/
theorem resolve_spec {T : Type} (v : T) :
    (∀ s : OneshotState T, s.receiverAlive = false →
      PromiseSender.resolve s v
        = ({ s with producerAlive := false },
           ["return channel closed before submitted task finishes"])) ∧
    (∀ s : OneshotState T, (PromiseSender.resolve s v).1.producerAlive = false) := by
  constructor
  · intro s h
    simp [PromiseSender.resolve, oneshotSend, h]
  · intro s
    by_cases h : s.receiverAlive <;>
      simp [PromiseSender.resolve, oneshotSend, h]

/-- Concrete run of `resolve_spec`: a dropped receiver makes resolve log
and consume the producer without surfacing anything. -/
theorem resolve_spec_w :
    PromiseSender.resolve (⟨true, false, none⟩ : OneshotState Nat) 3
      = (⟨false, false, none⟩,
         ["return channel closed before submitted task finishes"]) :=
  (resolve_spec 3).1 ⟨true, false, none⟩ rfl

/-- C6: on an event channel whose producers are all dropped and whose
queue is drained, `next()` fails with ChannelClosed while
`option_next()` resolves to the empty outcome. -/
theorem closed_channel_spec {M : Type} (c : EventChannel M)
    (hs : c.senders = 0) (hq : c.queue = []) :
    EventSource.next c = .ready (.error .channelClosed, c) ∧
    EventSource.optionNext c = .ready (none, c) := by
  constructor <;>
    simp [EventSource.next, EventSource.optionNext, recvPoll, hq, hs]

/-- Concrete run of `closed_channel_spec` on an empty, senderless
channel of naturals. -/
theorem closed_channel_spec_w :
    EventSource.next (⟨[], 0, true⟩ : EventChannel Nat)
        = .ready (.error .channelClosed, ⟨[], 0, true⟩) ∧
    EventSource.optionNext (⟨[], 0, true⟩ : EventChannel Nat)
        = .ready (none, ⟨[], 0, true⟩) :=
  closed_channel_spec ⟨[], 0, true⟩ rfl rfl

/-- C7: `send_to` with a non-socket destination fails with
UnsupportedAddress and an empty effect trace — the address check
precedes encoding, so the message is not even encoded and no bytes
reach the OS socket. -/
theorem sendTo_unsupported {M N : Type} (conv : M → N)
    (encode : N → Except Error (List Nat))
    (io' : SocketAddr → List Nat → Except Error Unit)
    (destination : Addr) (message : M)
    (h : ∀ a, destination ≠ .socket a) :
    UdpTransport.sendTo conv encode io' destination message
      = ([], .error .unsupportedAddress) := by
  cases destination with
  | socket a => exact absurd rfl (h a)
  | other => rfl

/-- Concrete run of `sendTo_unsupported` at the non-socket variant. -/
theorem sendTo_unsupported_w :
    UdpTransport.sendTo (id : Nat → Nat) (fun n => .ok [n])
        (fun _ _ => .ok ()) .other 3
      = ([], .error .unsupportedAddress) :=
  sendTo_unsupported id (fun n => .ok [n]) (fun _ _ => .ok ()) .other 3
    (fun _ h => Addr.noConfusion h)

/-- C8 counterexample: it is not the case that `addr()` always returns
an address for every outcome of the underlying `local_addr()` query —
`expect("retrievable local address")` panics when that query fails, so
the operation does not surface the failure as a typed result. -/
theorem addr_counterexample :
    ¬ ∀ r : Except Error SocketAddr, ∃ a, UdpTransport.addr r = .value a := by
  intro h
  obtain ⟨a, ha⟩ := h (.error .ioError)
  simp [UdpTransport.addr] at ha

/-- C8 (amended): `addr()` is a pure query returning the local address
wrapped in the socket variant when `local_addr()` succeeds; when
`local_addr()` fails it panics with "retrievable local address" instead
of returning a typed result. -/
theorem addr_spec :
    (∀ a, UdpTransport.addr (.ok a) = .value (.socket a)) ∧
    (∀ e, UdpTransport.addr (.error e)
        = .panicked "retrievable local address") :=
  ⟨fun _ => rfl, fun _ => rfl⟩

/-- Helper: the send loop over an all-socket destination list with a
healthy OS socket performs one OS send per destination, in order, all
with the same payload, and succeeds. -/
theorem sendLoop_all_sockets
    (io' : SocketAddr → List Nat → Except Error Unit) (buf : List Nat)
    (hio : ∀ d b, io' d b = .ok ()) (socks : List SocketAddr) :
    sendLoop io' buf (socks.map .socket)
      = (socks.map fun d => .osSend d buf, .ok ()) := by
  induction socks with
  | nil => rfl
  | cons d rest ih => simp [sendLoop, hio, ih]

/-- Helper: the send loop stops at the first non-socket destination,
keeping the sends already performed and failing with
UnsupportedAddress. -/
theorem sendLoop_first_mismatch
    (io' : SocketAddr → List Nat → Except Error Unit) (buf : List Nat)
    (hio : ∀ d b, io' d b = .ok ())
    (socks : List SocketAddr) (rest : List Addr) :
    sendLoop io' buf (socks.map .socket ++ .other :: rest)
      = (socks.map fun d => .osSend d buf, .error .unsupportedAddress) := by
  induction socks with
  | nil => rfl
  | cons d tail ih => simp [sendLoop, hio, ih]

/-- C2: `send_to_all` encodes the message exactly once (a single
`encodeOp`, before any send) and transmits that identical encoded
payload to each destination in sequence order; with a non-socket
destination in the list it stops there with UnsupportedAddress, and the
sends already performed to the earlier, all-socket prefix remain
performed. -/
theorem sendToAll_spec {M N : Type} (conv : M → N)
    (encode : N → Except Error (List Nat))
    (io' : SocketAddr → List Nat → Except Error Unit)
    (message : M) (buf : List Nat)
    (henc : encode (conv message) = .ok buf)
    (hio : ∀ d b, io' d b = .ok ()) :
    (∀ socks : List SocketAddr,
      UdpTransport.sendToAll conv encode io' (socks.map .socket) message
        = (.encodeOp :: socks.map (fun d => .osSend d buf), .ok ())) ∧
    (∀ (socks : List SocketAddr) (rest : List Addr),
      UdpTransport.sendToAll conv encode io'
          (socks.map .socket ++ .other :: rest) message
        = (.encodeOp :: socks.map (fun d => .osSend d buf),
           .error .unsupportedAddress)) := by
  constructor
  · intro socks
    simp [UdpTransport.sendToAll, henc, sendLoop_all_sockets io' buf hio]
  · intro socks rest
    simp [UdpTransport.sendToAll, henc,
      sendLoop_first_mismatch io' buf hio socks rest]

/-- Concrete run of `sendToAll_spec`: two socket destinations followed
by a non-socket one receive the same single encoding of 3, and the call
fails with UnsupportedAddress after the first two sends. -/
theorem sendToAll_spec_w :
    UdpTransport.sendToAll (id : Nat → Nat) (fun n => .ok [n])
        (fun _ _ => .ok ())
        (([⟨0, 1⟩, ⟨0, 2⟩] : List SocketAddr).map .socket ++ .other :: []) 3
      = (.encodeOp ::
          ([⟨0, 1⟩, ⟨0, 2⟩] : List SocketAddr).map (fun d => .osSend d [3]),
         .error .unsupportedAddress) :=
  (sendToAll_spec id (fun n => .ok [n]) (fun _ _ => .ok ()) 3 [3] rfl
    (fun _ _ => rfl)).2 [⟨0, 1⟩, ⟨0, 2⟩] []

/-- C10: `Null::submit_loop` returns success once the request stream
ends (every matching submit handle dropped), but — unlike
`PromiseSender::resolve`, which only logs — it propagates a failed
default-reply delivery: the first received request whose reply channel
was dropped ends the loop with an error, after which no remaining
request is served (the delivered-reply count stops at the prefix). -/
theorem submitLoop_spec :
    (∀ reqs : List Bool, (∀ r ∈ reqs, r = true) →
      Null.submitLoop reqs = (reqs.length, .ok ())) ∧
    (∀ (good : List Bool) (rest : List Bool), (∀ r ∈ good, r = true) →
      Null.submitLoop (good ++ false :: rest)
        = (good.length, .error .channelClosed)) := by
  constructor
  · intro reqs h
    induction reqs with
    | nil => rfl
    | cons r tail ih =>
        have hr : r = true := h r (List.mem_cons_self r tail)
        subst hr
        have := ih fun x hx => h x (List.mem_cons_of_mem _ hx)
        simp [Null.submitLoop, this]
  · intro good rest h
    induction good with
    | nil => rfl
    | cons r tail ih =>
        have hr : r = true := h r (List.mem_cons_self r tail)
        subst hr
        have := ih fun x hx => h x (List.mem_cons_of_mem _ hx)
        simp [Null.submitLoop, this]

/-- Concrete run of `submitLoop_spec`: one served request, then a
request with a dropped reply channel; the loop errors with the third
request left unserved. -/
theorem submitLoop_spec_w :
    Null.submitLoop ([true] ++ false :: [true])
      = ((1 : Nat), .error .channelClosed) :=
  submitLoop_spec.2 [true] [true] (by simp)

/-- Helper: decoding reads exactly the first `len` bytes the receive
call reported, so the slice handed to the decoder is the datagram
itself, whatever the reused buffer held before. -/
theorem take_bufWrite (buf d : List Nat) :
    (bufWrite buf d).take d.length = d := by
  simp [bufWrite, List.take_left]

/-- Helper: the session's published events, terminal state and
unprocessed outcomes do not depend on the receive buffer's contents. -/
theorem listenSession_buf_indep {W E : Type} (decode : List Nat → Option W)
    (conv : W → E) (pubAlive : Bool) :
    ∀ (inputs : List SelectOutcome) (buf1 buf2 : List Nat),
      listenSession decode conv pubAlive buf1 inputs
        = listenSession decode conv pubAlive buf2 inputs := by
  intro inputs
  induction inputs with
  | nil => intro _ _; rfl
  | cons i rest ih =>
      intro buf1 buf2
      cases i with
      | cancelled => rfl
      | recvFailed => rfl
      | datagram d =>
          simp only [listenSession, take_bufWrite]
          cases decode d with
          | none => rfl
          | some w =>
              cases pubAlive with
              | false => rfl
              | true => simp [ih (bufWrite buf1 d) (bufWrite buf2 d)]

/-- Events published for a list of raw datagrams: each decodable one,
converted. -/
def decodedEvents {W E : Type} (decode : List Nat → Option W) (conv : W → E)
    (ds : List (List Nat)) : List E :=
  ds.filterMap fun d => (decode d).map conv

/-- Helper: a prefix of datagrams that all decode, processed with a
live event-channel receiver, contributes exactly its converted events
and leaves the session to continue on the remaining outcomes. -/
theorem listenSession_good_run {W E : Type} (decode : List Nat → Option W)
    (conv : W → E) :
    ∀ (ds : List (List Nat)) (buf : List Nat) (rest : List SelectOutcome),
      (∀ d ∈ ds, (decode d).isSome) →
      listenSession decode conv true buf (ds.map .datagram ++ rest)
        = (decodedEvents decode conv ds
            ++ (listenSession decode conv true buf rest).1,
           (listenSession decode conv true buf rest).2) := by
  intro ds
  induction ds with
  | nil => intro buf rest _; simp [decodedEvents]
  | cons d tail ih =>
      intro buf rest h
      have hd : (decode d).isSome := h d (List.mem_cons_self d tail)
      obtain ⟨w, hw⟩ := Option.isSome_iff_exists.mp hd
      have htail := ih (bufWrite buf d) rest
        (fun x hx => h x (List.mem_cons_of_mem _ hx))
      have hb := listenSession_buf_indep decode conv true rest
        (bufWrite buf d) buf
      simp [listenSession, take_bufWrite, hw, htail, hb, decodedEvents]

/-- C3: once cancellation is observed the receive loop returns success
in the terminal Stopped state; every datagram received before the
cancellation was observed is still decoded and delivered as an event,
and the outcomes after the cancellation are left unprocessed — no new
receive attempt starts. -/
theorem listenSession_cancel {W E : Type} (decode : List Nat → Option W)
    (conv : W → E) (buf : List Nat) (ds : List (List Nat))
    (later : List SelectOutcome)
    (h : ∀ d ∈ ds, (decode d).isSome) :
    listenSession decode conv true buf
        (ds.map .datagram ++ .cancelled :: later)
      = (decodedEvents decode conv ds, .stopped, later) := by
  rw [listenSession_good_run decode conv ds buf (.cancelled :: later) h]
  simp [listenSession]

/-- Concrete run of `listenSession_cancel`: one datagram before the
cancellation is delivered, the session stops with success, and the
outcome queued after the cancellation is untouched. -/
theorem listenSession_cancel_w :
    listenSession (some : List Nat → Option (List Nat)) id true [0, 0, 0]
        (([[1, 2]] : List (List Nat)).map .datagram
          ++ .cancelled :: [.datagram [9]])
      = (decodedEvents some id [[1, 2]], .stopped, [.datagram [9]]) :=
  listenSession_cancel some id [0, 0, 0] [[1, 2]] [.datagram [9]]
    (fun _ _ => rfl)

/-- C4: the first datagram that fails to decode ends the whole session
with a Codec error, the outcomes after it never being processed; and
when the event-channel receiver is gone, publishing a successfully
decoded event fails and ends the session with an error as well. -/
theorem listenSession_failfast {W E : Type} (decode : List Nat → Option W)
    (conv : W → E) (buf : List Nat) :
    (∀ (ds : List (List Nat)) (bad : List Nat) (rest : List SelectOutcome),
      (∀ d ∈ ds, (decode d).isSome) → decode bad = none →
      listenSession decode conv true buf
          (ds.map .datagram ++ .datagram bad :: rest)
        = (decodedEvents decode conv ds, .failed .codec, rest)) ∧
    (∀ (d : List Nat) (w : W) (rest : List SelectOutcome),
      decode d = some w →
      listenSession decode conv false buf (.datagram d :: rest)
        = ([], .failed .channelClosed, rest)) := by
  constructor
  · intro ds bad rest h hbad
    rw [listenSession_good_run decode conv ds buf (.datagram bad :: rest) h]
    simp [listenSession, take_bufWrite, hbad]
  · intro d w rest hw
    simp [listenSession, take_bufWrite, hw]

/-- Concrete run of `listenSession_failfast`: a good datagram then an
undecodable one end the session with a Codec error, leaving the queued
outcome unprocessed; with no listener left, a good datagram ends the
session with a closed-channel error. -/
theorem listenSession_failfast_w :
    (listenSession (List.head? : List Nat → Option Nat) id true [0, 0, 0]
        (([[1, 2]] : List (List Nat)).map .datagram
          ++ .datagram [] :: [.cancelled])
      = (decodedEvents List.head? id [[1, 2]], .failed .codec, [.cancelled])) ∧
    (listenSession (List.head? : List Nat → Option Nat) id false [0, 0, 0]
        (.datagram [7] :: [.cancelled])
      = ([], .failed .channelClosed, [.cancelled])) :=
  ⟨(listenSession_failfast List.head? id [0, 0, 0]).1 [[1, 2]] [] [.cancelled]
      (by decide) rfl,
   (listenSession_failfast List.head? id [0, 0, 0]).2 [7] 7 [.cancelled] rfl⟩

/-- C9: each iteration decodes exactly the first `len` received bytes
of the reused 65536-byte buffer, so the slice handed to the decoder is
the datagram's own bytes, and the whole session's behaviour — events
published, terminal state, unprocessed outcomes — is identical whatever
residue earlier, longer datagrams left in the buffer. -/
theorem listenSession_slice_independent {W E : Type}
    (decode : List Nat → Option W) (conv : W → E) (pubAlive : Bool) :
    (∀ buf d : List Nat, (bufWrite buf d).take d.length = d) ∧
    (∀ (inputs : List SelectOutcome) (buf1 buf2 : List Nat),
      listenSession decode conv pubAlive buf1 inputs
        = listenSession decode conv pubAlive buf2 inputs) :=
  ⟨take_bufWrite, listenSession_buf_indep decode conv pubAlive⟩

end Halloween
